import Mathlib

/-!
Shallow embedding of the Sharecare backend (FastAPI over a document store).

The document store is modelled as association lists keyed by document id.
Timestamps, denormalized display fields (user_name, item snapshots, location)
and outbound e-mail are omitted: they are opaque to every property below.
Randomly generated identifiers (tracking ids, new document ids) are passed in
as explicit parameters.  Handlers are total functions returning the updated
store together with an optional error; an error raised before a write leaves
the store unchanged, exactly as in the source where the `raise` precedes the
corresponding `update`/`add` call.
-/

namespace Sharecare

/-- Error taxonomy of the spec: `notFound` is HTTP 404, `forbidden` 403,
`conflict` the HTTP 400s classed as Conflict by the spec (item unavailable,
duplicate like, self-reservation), `badRequest` the remaining 400s, and
`internal` 500. -/
inductive Err where
  | notFound
  | forbidden
  | conflict
  | badRequest
  | internal
  deriving DecidableEq, Repr

/-- An item document (claim-relevant fields). -/
structure Item where
  name : String
  donor_id : String
  status : String
  is_bulk_item : Bool
  quantity : Int
  likes : Int
  deriving DecidableEq, Repr

/-- A reservation document (claim-relevant fields). -/
structure Reservation where
  item_id : String
  user_id : String
  donor_id : String
  requested_quantity : Int
  message : Option String
  status : String
  tracking_id : Option String
  deriving DecidableEq, Repr

/-- One entry of a tracking record's status_history. -/
structure HistoryEntry where
  status : String
  notes : String
  updated_by : String
  deriving DecidableEq, Repr

/-- A tracking record document. -/
structure TrackingRecord where
  tracking_id : String
  reservation_id : String
  item_id : String
  donor_id : String
  requester_id : String
  current_status : String
  status_history : List HistoryEntry
  deriving DecidableEq, Repr

/-- A chat room document, keyed by (item, donor, requester). -/
structure Chat where
  reservation_id : String
  item_id : String
  donor_id : String
  requester_id : String
  deriving DecidableEq, Repr

/-- A notification document. -/
structure Notification where
  title : String
  message : String
  ntype : String
  target_users : List String
  read_by : List String
  deriving DecidableEq, Repr

/-- The document store: one association list (or plain list) per collection.
Likes are (item_id, user_id) join documents. -/
structure DB where
  items : List (String × Item)
  reservations : List (String × Reservation)
  tracking : List TrackingRecord
  chats : List Chat
  notifications : List Notification
  likes : List (String × String)
  deriving DecidableEq, Repr

/-- First document with the given id, together with its id
(`collection.document(id).get()`). -/
def findDoc {α : Type} : List (String × α) → String → Option (String × α)
  | [], _ => none
  | p :: rest, k => if p.1 = k then some p else findDoc rest k

/-- The value of the first document with the given id. -/
def getDoc {α : Type} (l : List (String × α)) (k : String) : Option α :=
  (findDoc l k).map Prod.snd

/-- Pointwise update of every document (used for `ref.update` on a keyed
document: the update function tests the key itself). -/
def mapDocs {α : Type} (f : String × α → α) (l : List (String × α)) : List (String × α) :=
  l.map (fun p => (p.1, f p))

/-- `db.collection("notifications").add(...)` from `create_notification`
(the admin variant is never used in the modelled paths). -/
def create_notification (db : DB) (title message ntype : String)
    (target_users : List String) : DB :=
  { db with notifications := db.notifications ++
      [{ title := title, message := message, ntype := ntype,
         target_users := target_users, read_by := [] }] }

/-- Keys and descriptions of the TRACKING_STATUSES dictionary. -/
def TRACKING_STATUSES : List (String × String) :=
  [("request_submitted", "Your request has been submitted to the donor"),
   ("request_accepted", "Great! The donor has accepted your request"),
   ("preparing_item", "The donor is preparing your item"),
   ("packing_completed", "Your item has been packed and is ready"),
   ("ready_for_pickup", "Your item is ready for pickup! Contact the donor to arrange collection"),
   ("picked_up", "Item has been successfully picked up"),
   ("completed", "Transaction completed successfully"),
   ("cancelled", "The request has been cancelled")]

/-- `new_status in TRACKING_STATUSES` (membership among the dictionary keys). -/
def isTrackingStatus (s : String) : Bool :=
  (TRACKING_STATUSES.map Prod.fst).contains s

/-- The tracking record built by `create_tracking_record` (the generated
tracking id is the `tid` argument). -/
def mk_tracking_record (tid reservation_id item_id donor_id requester_id : String) :
    TrackingRecord :=
  { tracking_id := tid,
    reservation_id := reservation_id,
    item_id := item_id,
    donor_id := donor_id,
    requester_id := requester_id,
    current_status := "request_accepted",
    status_history :=
      [{ status := "request_submitted",
         notes := "Request submitted to donor",
         updated_by := requester_id },
       { status := "request_accepted",
         notes := "Request accepted by donor",
         updated_by := donor_id }] }

/-- `create_tracking_record`: adds the new record to the tracking collection. -/
def create_tracking_record (db : DB)
    (tid reservation_id item_id donor_id requester_id : String) : DB :=
  { db with tracking := db.tracking ++
      [mk_tracking_record tid reservation_id item_id donor_id requester_id] }

/-- The history entry appended by `update_tracking_status`; absent notes
default to the status description. -/
def tracking_history_entry (new_status : String) (notes : Option String)
    (updated_by : String) : HistoryEntry :=
  { status := new_status,
    notes := notes.getD ((getDoc TRACKING_STATUSES new_status).getD ""),
    updated_by := updated_by }

/-- The per-record effect of `update_tracking_status`: append the entry to
status_history and set current_status. -/
def apply_tracking_update (t : TrackingRecord) (new_status : String)
    (notes : Option String) (updated_by : String) : TrackingRecord :=
  { t with current_status := new_status,
           status_history := t.status_history ++
             [tracking_history_entry new_status notes updated_by] }

/-- First tracking record with the given tracking_id
(`tracking_docs[0]` of the `where("tracking_id", "==", ...)` query). -/
def find_tracking : List TrackingRecord → String → Option TrackingRecord
  | [], _ => none
  | t :: rest, tid => if t.tracking_id = tid then some t else find_tracking rest tid

/-- Replace the first tracking record with the given tracking_id
(`tracking_doc.reference.update`). -/
def updateFirstTracking (f : TrackingRecord → TrackingRecord) :
    List TrackingRecord → String → List TrackingRecord
  | [], _ => []
  | t :: rest, tid =>
      if t.tracking_id = tid then f t :: rest
      else t :: updateFirstTracking f rest tid

/-- `util_functions.update_tracking_status`.  When the record is absent the
source raises a 404 inside its own try-block, whose blanket
`except Exception` converts it to a 500: the modelled error is `internal`.
On success it appends to the first matching record's history, sets
current_status, and notifies the requester when the status is in the
vocabulary. -/
def update_tracking_status (db : DB) (tracking_id new_status : String)
    (notes : Option String) (updated_by : String) : DB × Option Err :=
  match find_tracking db.tracking tracking_id with
  | none => (db, some Err.internal)
  | some t =>
    let newTracking := updateFirstTracking
      (fun u => apply_tracking_update u new_status notes updated_by)
      db.tracking tracking_id
    let db1 := { db with tracking := newTracking }
    let db2 :=
      if isTrackingStatus new_status then
        create_notification db1
          ((getDoc TRACKING_STATUSES new_status).getD "")
          ("Tracking ID: " ++ tracking_id)
          "tracking_update" [t.requester_id]
      else db1
    (db2, none)

/-- True when the likes collection already holds a (item, user) join document. -/
def userLiked (likes : List (String × String)) (item_id uid : String) : Bool :=
  likes.any (fun p => p.1 == item_id && p.2 == uid)

/-- `like_item` endpoint: 404 on absent item, 400 on duplicate like
(Conflict in the spec taxonomy), else add the join document and write
back `likes + 1`. -/
def like_item (db : DB) (item_id uid : String) : DB × Option Err :=
  match getDoc db.items item_id with
  | none => (db, some Err.notFound)
  | some _ =>
    if userLiked db.likes item_id uid then (db, some Err.conflict)
    else
      let db1 := { db with likes := db.likes ++ [(item_id, uid)] }
      let newItems := mapDocs
          (fun p => if p.1 = item_id then { p.2 with likes := p.2.likes + 1 } else p.2)
          db1.items
      let db2 := { db1 with items := newItems }
      (db2, none)

/-- `unlike_item` endpoint: 404 on absent item, 400 when not liked, else
delete the matching join documents and write back `max 0 (likes - 1)`. -/
def unlike_item (db : DB) (item_id uid : String) : DB × Option Err :=
  match getDoc db.items item_id with
  | none => (db, some Err.notFound)
  | some _ =>
    if userLiked db.likes item_id uid = false then (db, some Err.badRequest)
    else
      let remaining := db.likes.filter (fun p => !(p.1 == item_id && p.2 == uid))
      let db1 := { db with likes := remaining }
      let newItems := mapDocs
          (fun p => if p.1 = item_id then { p.2 with likes := max 0 (p.2.likes - 1) } else p.2)
          db1.items
      let db2 := { db1 with items := newItems }
      (db2, none)

/-- The pending reservation document written by `reserve_item`. -/
def pendingReservation (item_id uid : String) (it : Item) (quantity : Int)
    (message : Option String) : Reservation :=
  { item_id := item_id,
    user_id := uid,
    donor_id := it.donor_id,
    requested_quantity := quantity,
    message := message,
    status := "pending",
    tracking_id := none }

/-- The "New Reservation Request" notification to the donor. -/
def reservation_request_notification (item_name donor_id : String) : Notification :=
  { title := "New Reservation Request",
    message := "Someone wants to reserve your item " ++ item_name,
    ntype := "reservation_request",
    target_users := [donor_id],
    read_by := [] }

/-- `reserve_item` endpoint (`POST /items/{id}/reserve`; `create_reservation`
has the same guard structure): 404 on absent item, Conflict (HTTP 400) when
the item is not available or the requester is the donor; else add a pending
reservation (its generated document id is `new_resv_id`) and notify the
donor.  Every error is raised before any write. -/
def reserve_item (db : DB) (item_id uid : String) (quantity : Int)
    (message : Option String) (new_resv_id : String) : DB × Option Err :=
  match getDoc db.items item_id with
  | none => (db, some Err.notFound)
  | some it =>
    if it.status ≠ "available" then (db, some Err.conflict)
    else if it.donor_id = uid then (db, some Err.conflict)
    else
      let db1 := { db with reservations := db.reservations ++
          [(new_resv_id, pendingReservation item_id uid it quantity message)] }
      let db2 := { db1 with notifications := db1.notifications ++
          [reservation_request_notification it.name it.donor_id] }
      (db2, none)

/-- First tracking record with the given reservation_id
(`where("reservation_id", "==", ...)`, first document of the stream). -/
def find_tracking_by_resv : List TrackingRecord → String → Option TrackingRecord
  | [], _ => none
  | t :: rest, rid =>
      if t.reservation_id = rid then some t else find_tracking_by_resv rest rid

/-- `mark_item_picked_up` endpoint (`POST /items/{item_id}/pickup`): 404 on
absent reservation, 403 when the caller is not the requester; else set the
reservation's status to picked_up, set the item's status to donated (the
source does this unconditionally, with no bulk-item check), and advance the
associated tracking record to picked_up when one exists. -/
def mark_item_picked_up (db : DB) (item_id reservationId uid : String) :
    DB × Option Err :=
  match getDoc db.reservations reservationId with
  | none => (db, some Err.notFound)
  | some resv =>
    if resv.user_id ≠ uid then (db, some Err.forbidden)
    else
      let newResvs := mapDocs
          (fun p => if p.1 = reservationId then { p.2 with status := "picked_up" } else p.2)
          db.reservations
      let db1 := { db with reservations := newResvs }
      let newItems := mapDocs
          (fun p => if p.1 = item_id then { p.2 with status := "donated" } else p.2)
          db1.items
      let db2 := { db1 with items := newItems }
      match find_tracking_by_resv db2.tracking reservationId with
      | some t => update_tracking_status db2 t.tracking_id "picked_up"
          (some "Item successfully picked up by requester") uid
      | none => (db2, none)

/-- The "Request Not Selected" notification sent to each rejected requester. -/
def not_selected_notification (item_name user_id : String) : Notification :=
  { title := "Request Not Selected",
    message := "Your request for " ++ item_name ++ " was not selected. The donor chose another requester.",
    ntype := "reservation_declined",
    target_users := [user_id],
    read_by := [] }

/-- The pending-on-this-item test used by `reject_other_requests`
(the approved reservation is excluded by document id). -/
def isOtherPending (item_id approved_id : String) (p : String × Reservation) : Bool :=
  p.2.item_id == item_id && p.2.status == "pending" && p.1 != approved_id

/-- `reject_other_requests`: decline every other pending reservation on the
item and send each rejected requester a "not selected" notification. -/
def reject_other_requests (db : DB) (item_id approved_id : String) (it : Item) : DB :=
  let newResvs := mapDocs
    (fun p => if isOtherPending item_id approved_id p
              then { p.2 with status := "declined" } else p.2)
    db.reservations
  let newNotifs := (db.reservations.filter (isOtherPending item_id approved_id)).map
    (fun p => not_selected_notification it.name p.2.user_id)
  { db with reservations := newResvs,
            notifications := db.notifications ++ newNotifs }

/-- The "Request Approved!" notification to the requester. -/
def approval_notification (item_name tid user_id : String) : Notification :=
  { title := "Request Approved!",
    message := "Your request for " ++ item_name ++ " has been approved. Tracking ID: " ++ tid,
    ntype := "reservation_approved",
    target_users := [user_id],
    read_by := [] }

/-- The "Request Declined" notification to the requester. -/
def reservation_declined_notification (item_name user_id : String) : Notification :=
  { title := "Request Declined",
    message := "Unfortunately, your request for " ++ item_name ++ " was declined.",
    ntype := "reservation_declined",
    target_users := [user_id],
    read_by := [] }

/-- `is_already_chat_room` query: a chat keyed by (item, requester, donor)
already exists. -/
def chatExists (chats : List Chat) (item_id requester_id donor_id : String) : Bool :=
  chats.any (fun c =>
    c.item_id == item_id && c.requester_id == requester_id && c.donor_id == donor_id)

/-- `update_reservation_status` endpoint (`PUT /reservations/{id}/status`).
The `status: str = Form(...)` parameter shadows fastapi's `status` module,
so every HTTPException raise in this handler — the 404 for an absent
reservation, the 403 for a non-donor caller, and even the generic 500
fallback — evaluates `status.HTTP_...` on a string, raises AttributeError,
and the endpoint answers HTTP 500: all three error branches are `internal`,
each reached before any write (the item-absent branch fails the same way
when `item_doc.to_dict()` returns None).  Otherwise the supplied status
string is written to the reservation verbatim, with no validation; the
branches for "approved" (tracking record `tid`, bulk-quantity or reserved
update, rejection of competitors, chat creation, approval notification) and
"declined" (decline notification only) add their side effects. -/
def update_reservation_status (db : DB) (reservation_id stat uid tid : String) :
    DB × Option Err :=
  match getDoc db.reservations reservation_id with
  | none => (db, some Err.internal)
  | some r =>
    match getDoc db.items r.item_id with
    | none => (db, some Err.internal)
    | some it =>
      if it.donor_id ≠ uid then (db, some Err.internal)
      else
        let resvs1 := mapDocs
            (fun p => if p.1 = reservation_id then { p.2 with status := stat } else p.2)
            db.reservations
        let db1 := { db with reservations := resvs1 }
        if stat = "approved" then
          let db2 := create_tracking_record db1 tid reservation_id r.item_id
              it.donor_id r.user_id
          let resvs3 := mapDocs
              (fun p => if p.1 = reservation_id then { p.2 with tracking_id := some tid } else p.2)
              db2.reservations
          let db3 := { db2 with reservations := resvs3 }
          let db4 :=
            if it.is_bulk_item ∧ 1 < it.quantity then
              let new_quantity := it.quantity - r.requested_quantity
              if new_quantity ≤ 0 then
                let soldOut := mapDocs
                    (fun p => if p.1 = r.item_id
                              then { p.2 with status := "donated", quantity := 0 } else p.2)
                    db3.items
                reject_other_requests { db3 with items := soldOut } r.item_id reservation_id it
              else
                let decremented := mapDocs
                    (fun p => if p.1 = r.item_id
                              then { p.2 with quantity := new_quantity } else p.2)
                    db3.items
                { db3 with items := decremented }
            else
              let reservedItems := mapDocs
                  (fun p => if p.1 = r.item_id
                            then { p.2 with status := "reserved" } else p.2)
                  db3.items
              reject_other_requests { db3 with items := reservedItems } r.item_id reservation_id it
          let db5 :=
            if chatExists db4.chats r.item_id r.user_id it.donor_id then db4
            else { db4 with chats := db4.chats ++
                [{ reservation_id := reservation_id, item_id := r.item_id,
                   donor_id := it.donor_id, requester_id := r.user_id }] }
          let db6 := { db5 with notifications := db5.notifications ++
              [approval_notification it.name tid r.user_id] }
          (db6, none)
        else if stat = "declined" then
          ({ db1 with notifications := db1.notifications ++
              [reservation_declined_notification it.name r.user_id] }, none)
        else (db1, none)

/-- The "Item Delivered!" notification to the requester. -/
def item_delivered_notification (item_name requester_id : String) : Notification :=
  { title := "Item Delivered!",
    message := "The item " ++ item_name ++ " has been marked as delivered. Thank you for donating!",
    ntype := "item_delivered",
    target_users := [requester_id],
    read_by := [] }

/-- `update_tracking_status_endpoint` (`PUT /tracking/{tracking_id}/status`):
404 on unknown tracking id, 403 when the caller is not the donor, 400 when
the status is outside the vocabulary; else delegate to
`update_tracking_status`, and for "completed"/"picked_up" additionally mark
the reservation picked_up, mark a non-bulk item donated, and send a delivery
notification.  Two dangling-reference failure paths after the tracking
write: when the reservation document is absent, `reservation_ref.update`
raises and the blanket except answers 500; when the item document is
absent, the notification line reads the unbound `item_data` and the
NameError becomes a 500 after the reservation write. -/
def update_tracking_status_endpoint (db : DB) (tracking_id reqStatus : String)
    (notes : Option String) (uid : String) : DB × Option Err :=
  match find_tracking db.tracking tracking_id with
  | none => (db, some Err.notFound)
  | some t =>
    if t.donor_id ≠ uid then (db, some Err.forbidden)
    else if isTrackingStatus reqStatus = false then (db, some Err.badRequest)
    else
      let res1 := update_tracking_status db tracking_id reqStatus notes uid
      if reqStatus = "completed" ∨ reqStatus = "picked_up" then
        match getDoc res1.1.reservations t.reservation_id with
        | none => (res1.1, some Err.internal)
        | some _ =>
        let resvs2 := mapDocs
            (fun p => if p.1 = t.reservation_id then { p.2 with status := "picked_up" } else p.2)
            res1.1.reservations
        let db2 := { res1.1 with reservations := resvs2 }
        match getDoc db2.items t.item_id with
        | none => (db2, some Err.internal)
        | some it =>
          let db3 :=
            if it.is_bulk_item then db2
            else
              let donatedItems := mapDocs
                (fun p => if p.1 = t.item_id then { p.2 with status := "donated" } else p.2)
                db2.items
              { db2 with items := donatedItems }
          ({ db3 with notifications := db3.notifications ++
              [item_delivered_notification it.name t.requester_id] }, res1.2)
      else (res1.1, res1.2)

/-- `get_unread_notifications_count`: the targeted query
(`array_contains uid`) concatenated with the broadcast query
(`target_users == []`), counting the documents whose read_by misses the
caller. -/
def get_unread_notifications_count (db : DB) (uid : String) : Nat :=
  let notifications_docs := db.notifications.filter (fun n => n.target_users.contains uid)
  let general_docs := db.notifications.filter (fun n => n.target_users.isEmpty)
  ((notifications_docs ++ general_docs).filter
    (fun n => !(n.read_by.contains uid))).length

/-- Modelled from the spec's words for the unread count, to be compared with
`get_unread_notifications_count`: the number of notifications whose read_by
misses the caller, restricted to those targeting the caller or broadcast. -/
def unread_count_spec (db : DB) (uid : String) : Nat :=
  db.notifications.countP
    (fun n => (n.target_users.contains uid || n.target_users.isEmpty)
              && !(n.read_by.contains uid))

/-- A like or unlike request (item id, caller id). -/
inductive LikeOp where
  | like : String → String → LikeOp
  | unlike : String → String → LikeOp
  deriving DecidableEq, Repr

/-- The store after one like/unlike request (errors leave it unchanged). -/
def applyLikeOp (db : DB) : LikeOp → DB
  | .like iid uid => (like_item db iid uid).1
  | .unlike iid uid => (unlike_item db iid uid).1

/-- The store after a sequence of like/unlike requests. -/
def runLikeOps (db : DB) : List LikeOp → DB
  | [] => db
  | op :: ops => runLikeOps (applyLikeOp db op) ops

/-- Every item's stored likes counter is non-negative. -/
def itemsLikesNonneg (db : DB) : Prop := ∀ p ∈ db.items, 0 ≤ p.2.likes

/-- The approved-on-this-item test used to count approved reservations. -/
def approvedOnItem (item_id : String) (p : String × Reservation) : Bool :=
  p.2.item_id == item_id && p.2.status == "approved"

/-- current_status agrees with the last status_history entry. -/
def tracking_ok (t : TrackingRecord) : Prop :=
  t.status_history.getLast?.map HistoryEntry.status = some t.current_status

/-! Helper lemmas about the document-store primitives. -/

theorem findDoc_key {α : Type} {l : List (String × α)} {k : String} {p : String × α}
    (h : findDoc l k = some p) : p.1 = k ∧ p ∈ l := by
  induction l with
  | nil => simp [findDoc] at h
  | cons q rest ih =>
    by_cases hq : q.1 = k
    · simp [findDoc, hq] at h
      subst h
      exact ⟨hq, List.mem_cons_self _ _⟩
    · simp [findDoc, hq] at h
      rcases ih h with ⟨h1, h2⟩
      exact ⟨h1, List.mem_cons_of_mem _ h2⟩

theorem findDoc_of_mem_nodup {α : Type} {l : List (String × α)} {k : String} {v : α}
    (hnd : (l.map Prod.fst).Nodup) (hm : (k, v) ∈ l) : findDoc l k = some (k, v) := by
  induction l with
  | nil => cases hm
  | cons q rest ih =>
    rcases List.mem_cons.mp hm with heq | hmem
    · subst heq
      simp [findDoc]
    · have hq : q.1 ≠ k := by
        intro hcontra
        have hk : k ∈ rest.map Prod.fst :=
          List.mem_map.mpr ⟨(k, v), hmem, rfl⟩
        have := (List.nodup_cons.mp hnd).1
        rw [hcontra] at this
        exact this hk
      simp [findDoc, hq]
      exact ih (List.nodup_cons.mp hnd).2 hmem

theorem mem_key_eq {α : Type} {l : List (String × α)} {k : String} {v : α}
    {p : String × α} (hnd : (l.map Prod.fst).Nodup) (hm : (k, v) ∈ l)
    (hp : p ∈ l) (hk : p.1 = k) : p = (k, v) := by
  obtain ⟨p1, p2⟩ := p
  dsimp at hk
  subst hk
  have h1 := findDoc_of_mem_nodup hnd hm
  have h2 := findDoc_of_mem_nodup hnd hp
  rw [h1] at h2
  exact (Option.some.inj h2).symm

theorem findDoc_mapDocs {α : Type} (f : String × α → α) (l : List (String × α))
    (k : String) :
    findDoc (mapDocs f l) k = (findDoc l k).map (fun p => (p.1, f p)) := by
  induction l with
  | nil => rfl
  | cons q rest ih =>
    by_cases hq : q.1 = k
    · simp [mapDocs, findDoc, hq]
    · simp only [mapDocs, findDoc, List.map_cons, hq, if_false, ite_false] at ih ⊢
      simpa [mapDocs] using ih

theorem getDoc_mapDocs {α : Type} (f : String × α → α) (l : List (String × α))
    (k : String) :
    getDoc (mapDocs f l) k = (findDoc l k).map (fun p => f p) := by
  simp [getDoc, findDoc_mapDocs, Option.map_map]
  rfl

theorem mapDocs_mapDocs {α : Type} (f g : String × α → α) (l : List (String × α)) :
    mapDocs f (mapDocs g l) = mapDocs (fun p => f (p.1, g p)) l := by
  induction l with
  | nil => rfl
  | cons q rest ih => simp [mapDocs] at ih ⊢

theorem countP_mapDocs {α : Type} (q : String × α → Bool) (f : String × α → α)
    (l : List (String × α)) :
    (mapDocs f l).countP q = l.countP (fun p => q (p.1, f p)) := by
  induction l with
  | nil => rfl
  | cons a rest ih => simp [mapDocs, List.countP_cons] at ih ⊢; rw [ih]

theorem countP_key_one {α : Type} {l : List (String × α)} {k : String} {v : α}
    (hnd : (l.map Prod.fst).Nodup) (hm : (k, v) ∈ l) :
    l.countP (fun p => p.1 == k) = 1 := by
  induction l with
  | nil => cases hm
  | cons q rest ih =>
    have hnd' := List.nodup_cons.mp hnd
    rw [List.countP_cons]
    rcases List.mem_cons.mp hm with heq | hmem
    · have hq : q.1 = k := by rw [← heq]
      have hzero : rest.countP (fun p => p.1 == k) = 0 := by
        rw [List.countP_eq_zero]
        intro a ha hak
        rw [beq_iff_eq] at hak
        exact hnd'.1 (by rw [hq]; exact List.mem_map.mpr ⟨a, ha, hak⟩)
      simp [hzero, hq]
    · have hq : (q.1 == k) = false := by
        rw [beq_eq_false_iff_ne]
        intro hqk
        exact hnd'.1 (by rw [hqk]; exact List.mem_map.mpr ⟨(k, v), hmem, rfl⟩)
      rw [ih hnd'.2 hmem, hq]
      simp

theorem mem_mapDocs {α : Type} {f : String × α → α} {l : List (String × α)}
    {p : String × α} (h : p ∈ mapDocs f l) : ∃ q ∈ l, p = (q.1, f q) := by
  rcases List.mem_map.mp h with ⟨q, hq, hpq⟩
  exact ⟨q, hq, hpq.symm⟩

theorem find_tracking_updateFirst (f : TrackingRecord → TrackingRecord)
    (hf : ∀ t, (f t).tracking_id = t.tracking_id)
    (l : List TrackingRecord) (tid : String) :
    find_tracking (updateFirstTracking f l tid) tid =
      (find_tracking l tid).map f := by
  induction l with
  | nil => rfl
  | cons t rest ih =>
    by_cases ht : t.tracking_id = tid
    · simp [updateFirstTracking, find_tracking, ht, hf]
    · simp [updateFirstTracking, find_tracking, ht, ih]

theorem mem_updateFirstTracking {f : TrackingRecord → TrackingRecord}
    {l : List TrackingRecord} {tid : String} {t' : TrackingRecord}
    (h : t' ∈ updateFirstTracking f l tid) : t' ∈ l ∨ ∃ t ∈ l, t' = f t := by
  induction l with
  | nil => cases h
  | cons t rest ih =>
    by_cases ht : t.tracking_id = tid
    · simp [updateFirstTracking, ht] at h
      rcases h with h | h
      · exact Or.inr ⟨t, List.mem_cons_self _ _, h⟩
      · exact Or.inl (List.mem_cons_of_mem _ h)
    · simp [updateFirstTracking, ht] at h
      rcases h with h | h
      · exact Or.inl (by rw [h]; exact List.mem_cons_self _ _)
      · rcases ih h with h1 | ⟨u, hu, hu2⟩
        · exact Or.inl (List.mem_cons_of_mem _ h1)
        · exact Or.inr ⟨u, List.mem_cons_of_mem _ hu, hu2⟩

theorem tracking_ok_apply_update (t : TrackingRecord) (s : String)
    (notes : Option String) (ub : String) :
    tracking_ok (apply_tracking_update t s notes ub) := by
  simp [tracking_ok, apply_tracking_update, tracking_history_entry, List.getLast?_concat]

/-- C4: a tracking record built by create_tracking_record satisfies the
invariant current_status = last history entry's status; every advance
preserves the invariant and appends exactly one entry to status_history,
removing or reordering nothing; the invariant is preserved across the
collection by the db-level create and update operations. -/
theorem tracking_record_inv :
    (∀ tid rid iid did uid, tracking_ok (mk_tracking_record tid rid iid did uid)) ∧
    (∀ t s notes ub, tracking_ok t →
      tracking_ok (apply_tracking_update t s notes ub) ∧
      (apply_tracking_update t s notes ub).status_history
        = t.status_history ++ [tracking_history_entry s notes ub]) ∧
    (∀ db tid rid iid did uid, (∀ t ∈ db.tracking, tracking_ok t) →
      ∀ u ∈ (create_tracking_record db tid rid iid did uid).tracking, tracking_ok u) ∧
    (∀ db tid s notes ub, (∀ t ∈ db.tracking, tracking_ok t) →
      ∀ u ∈ (update_tracking_status db tid s notes ub).1.tracking, tracking_ok u) := by
  refine ⟨?_, ?_, ?_, ?_⟩
  · intro tid rid iid did uid
    simp [tracking_ok, mk_tracking_record]
  · intro t s notes ub _
    exact ⟨tracking_ok_apply_update t s notes ub, rfl⟩
  · intro db tid rid iid did uid h u hu
    simp [create_tracking_record] at hu
    rcases hu with hu | hu
    · exact h u hu
    · rw [hu]
      simp [tracking_ok, mk_tracking_record]
  · intro db tid s notes ub h u hu
    unfold update_tracking_status at hu
    cases hft : find_tracking db.tracking tid with
    | none => rw [hft] at hu; exact h u hu
    | some t =>
      rw [hft] at hu
      by_cases hits : isTrackingStatus s <;>
        simp only [hits, create_notification, if_true, if_false, ite_true, ite_false] at hu <;>
        rcases mem_updateFirstTracking hu with h1 | ⟨t0, _, rfl⟩ <;>
        first
          | exact h u h1
          | exact tracking_ok_apply_update t0 s notes ub

/-- Witness for C4 at a concrete record and advance. -/
theorem tracking_record_inv_witness :
    tracking_ok (apply_tracking_update (mk_tracking_record "SC1" "r" "i" "d" "u")
      "picked_up" none "u") ∧
    (apply_tracking_update (mk_tracking_record "SC1" "r" "i" "d" "u")
      "picked_up" none "u").status_history
      = (mk_tracking_record "SC1" "r" "i" "d" "u").status_history ++
        [tracking_history_entry "picked_up" none "u"] :=
  tracking_record_inv.2.1 (mk_tracking_record "SC1" "r" "i" "d" "u")
    "picked_up" none "u" (tracking_record_inv.1 "SC1" "r" "i" "d" "u")

/-- C5: reserve fails with NotFound on an absent item; with Conflict whenever
the item's status is anything other than available, or the requester is the
donor; every failure leaves the store unchanged (no reservation document);
otherwise it appends a reservation with status pending and a notification to
the donor. -/
theorem reserve_item_spec :
    (∀ db item_id uid q m nid, getDoc db.items item_id = none →
       reserve_item db item_id uid q m nid = (db, some Err.notFound)) ∧
    (∀ db item_id uid q m nid it, getDoc db.items item_id = some it →
       it.status ≠ "available" →
       reserve_item db item_id uid q m nid = (db, some Err.conflict)) ∧
    (∀ db item_id uid q m nid it, getDoc db.items item_id = some it →
       it.status = "available" → it.donor_id = uid →
       reserve_item db item_id uid q m nid = (db, some Err.conflict)) ∧
    (∀ db item_id uid q m nid it, getDoc db.items item_id = some it →
       it.status = "available" → it.donor_id ≠ uid →
       reserve_item db item_id uid q m nid =
         ({ db with reservations := db.reservations ++ [(nid, pendingReservation item_id uid it q m)], notifications := db.notifications ++ [reservation_request_notification it.name it.donor_id] }, none) ∧
       (pendingReservation item_id uid it q m).status = "pending") := by
  refine ⟨?_, ?_, ?_, ?_⟩
  · intro db item_id uid q m nid h
    simp [reserve_item, h]
  · intro db item_id uid q m nid it h hs
    simp [reserve_item, h, hs]
  · intro db item_id uid q m nid it h hs hd
    simp [reserve_item, h, hs, hd]
  · intro db item_id uid q m nid it h hs hd
    refine ⟨?_, rfl⟩
    simp [reserve_item, h, hs, hd]

def itemW : Item :=
  { name := "rice", donor_id := "d", status := "available",
    is_bulk_item := false, quantity := 1, likes := 0 }

def dbW : DB :=
  { items := [("i1", itemW)], reservations := [], tracking := [],
    chats := [], notifications := [], likes := [] }

/-- Witness for C5 on a concrete available item. -/
theorem reserve_item_spec_witness :
    reserve_item dbW "i1" "u" 1 none "r1" =
      ({ dbW with reservations := dbW.reservations ++ [("r1", pendingReservation "i1" "u" itemW 1 none)], notifications := dbW.notifications ++ [reservation_request_notification itemW.name itemW.donor_id] }, none) ∧
    (pendingReservation "i1" "u" itemW 1 none).status = "pending" :=
  reserve_item_spec.2.2.2 dbW "i1" "u" 1 none "r1" itemW rfl rfl (by decide)

theorem count_split (l : List Notification) (uid : String) :
    l.countP (fun n => !(n.read_by.contains uid) && n.target_users.contains uid)
      + l.countP (fun n => !(n.read_by.contains uid) && n.target_users.isEmpty)
    = l.countP (fun n => (n.target_users.contains uid || n.target_users.isEmpty)
        && !(n.read_by.contains uid)) := by
  induction l with
  | nil => rfl
  | cons n rest ih =>
    simp only [List.countP_cons]
    cases htu : n.target_users with
    | nil =>
      cases hr : n.read_by.contains uid <;> simp [htu, hr] at ih ⊢ <;> omega
    | cons a as =>
      cases hc : (a :: as).contains uid <;>
        cases hr : n.read_by.contains uid <;> simp [htu, hr, hc] at ih ⊢ <;> omega

/-- C7: the unread notification count for a user equals the number of
notifications whose read_by misses the user, restricted to notifications
targeting the user or broadcast (empty target_users). -/
theorem unread_count_correct (db : DB) (uid : String) :
    get_unread_notifications_count db uid = unread_count_spec db uid := by
  simp only [get_unread_notifications_count, unread_count_spec]
  rw [List.filter_append, List.length_append, List.filter_filter, List.filter_filter,
    ← List.countP_eq_length_filter, ← List.countP_eq_length_filter]
  exact count_split db.notifications uid

theorem like_item_preserves_nonneg (db : DB) (iid uid : String)
    (h : itemsLikesNonneg db) : itemsLikesNonneg (like_item db iid uid).1 := by
  unfold like_item
  cases hgd : getDoc db.items iid with
  | none => exact h
  | some it =>
    by_cases hl : userLiked db.likes iid uid = true
    · rw [if_pos hl]
      exact h
    · rw [if_neg hl]
      intro p hp
      dsimp only at hp
      rcases mem_mapDocs hp with ⟨q, hq, rfl⟩
      by_cases hqi : q.1 = iid
      · rw [if_pos hqi]
        have := h q hq
        dsimp only
        omega
      · rw [if_neg hqi]
        exact h q hq

theorem unlike_item_preserves_nonneg (db : DB) (iid uid : String)
    (h : itemsLikesNonneg db) : itemsLikesNonneg (unlike_item db iid uid).1 := by
  unfold unlike_item
  cases hgd : getDoc db.items iid with
  | none => exact h
  | some it =>
    by_cases hl : userLiked db.likes iid uid = false
    · rw [if_pos hl]
      exact h
    · rw [if_neg hl]
      intro p hp
      dsimp only at hp
      rcases mem_mapDocs hp with ⟨q, hq, rfl⟩
      by_cases hqi : q.1 = iid
      · rw [if_pos hqi]
        dsimp only
        exact le_max_left 0 _
      · rw [if_neg hqi]
        exact h q hq

/-- C10: the stored likes counter never becomes negative: like increments by
one (failing when the user already liked the item), unlike writes
max 0 (likes - 1), and non-negativity is an invariant preserved by both
operations and by every sequence of them. -/
theorem likes_never_negative :
    (∀ db iid uid, itemsLikesNonneg db → itemsLikesNonneg (like_item db iid uid).1) ∧
    (∀ db iid uid, itemsLikesNonneg db → itemsLikesNonneg (unlike_item db iid uid).1) ∧
    (∀ db iid uid it, getDoc db.items iid = some it →
       userLiked db.likes iid uid = true →
       like_item db iid uid = (db, some Err.conflict)) ∧
    (∀ db ops, itemsLikesNonneg db → itemsLikesNonneg (runLikeOps db ops)) := by
  refine ⟨like_item_preserves_nonneg, unlike_item_preserves_nonneg, ?_, ?_⟩
  · intro db iid uid it h hl
    simp [like_item, h, hl]
  · intro db ops
    induction ops generalizing db with
    | nil => exact fun h => h
    | cons op rest ih =>
      intro h
      cases op with
      | like iid uid =>
        exact ih _ (like_item_preserves_nonneg db iid uid h)
      | unlike iid uid =>
        exact ih _ (unlike_item_preserves_nonneg db iid uid h)

/-- Witness for C10: a like followed by two unlikes on a fresh store. -/
theorem likes_never_negative_witness :
    itemsLikesNonneg (runLikeOps dbW
      [LikeOp.like "i1" "u", LikeOp.unlike "i1" "u", LikeOp.unlike "i1" "u"]) :=
  likes_never_negative.2.2.2 dbW
    [LikeOp.like "i1" "u", LikeOp.unlike "i1" "u", LikeOp.unlike "i1" "u"]
    (by intro p hp; simp [dbW] at hp; rw [hp]; simp [itemW])

theorem getDoc_some_findDoc {α : Type} {l : List (String × α)} {k : String} {v : α}
    (h : getDoc l k = some v) : findDoc l k = some (k, v) := by
  unfold getDoc at h
  cases hf : findDoc l k with
  | none => rw [hf] at h; cases h
  | some p =>
    rw [hf] at h
    obtain ⟨p1, p2⟩ := p
    have hk := (findDoc_key hf).1
    dsimp at hk h
    rw [hk, Option.some.inj h]

/-- C8: the donor's decline has exactly the claimed frame — only the
reservation's status and one decline notification change; items, tracking,
chats and likes are untouched.  The Forbidden clause is a bug in the code,
not in the claim: the `status: str = Form(...)` parameter shadows fastapi's
`status` module, so the intended `status.HTTP_403_FORBIDDEN` raise (and the
generic 500 fallback after it) fail with AttributeError, and a non-donor
caller receives HTTP 500 Internal with the store unchanged, never 403. -/
theorem decline_frame :
    (∀ db rid uid tid r it, getDoc db.reservations rid = some r →
       getDoc db.items r.item_id = some it → it.donor_id ≠ uid →
       update_reservation_status db rid "declined" uid tid = (db, some Err.internal)) ∧
    (∀ db rid uid tid r it, getDoc db.reservations rid = some r →
       getDoc db.items r.item_id = some it → it.donor_id = uid →
       update_reservation_status db rid "declined" uid tid
         = ({ db with reservations := mapDocs (fun p => if p.1 = rid then { p.2 with status := "declined" } else p.2) db.reservations, notifications := db.notifications ++ [reservation_declined_notification it.name r.user_id] }, none)) := by
  constructor
  · intro db rid uid tid r it hr hit hd
    simp [update_reservation_status, hr, hit, hd]
  · intro db rid uid tid r it hr hit hd
    simp [update_reservation_status, hr, hit, hd]

def declinedW : Reservation :=
  { item_id := "i1", user_id := "u", donor_id := "d", requested_quantity := 1,
    message := none, status := "pending", tracking_id := none }

def dbW8 : DB :=
  { items := [("i1", itemW)], reservations := [("r1", declinedW)], tracking := [],
    chats := [], notifications := [], likes := [] }

/-- Witness for C8: a non-donor caller gets Internal with the store
unchanged (the failing input of the Forbidden clause), and a concrete donor
decline has exactly the claimed frame. -/
theorem decline_frame_witness :
    update_reservation_status dbW8 "r1" "declined" "mallory" "T1"
      = (dbW8, some Err.internal) ∧
    update_reservation_status dbW8 "r1" "declined" "d" "T1"
      = ({ dbW8 with reservations := mapDocs (fun p => if p.1 = "r1" then { p.2 with status := "declined" } else p.2) dbW8.reservations, notifications := dbW8.notifications ++ [reservation_declined_notification itemW.name declinedW.user_id] }, none) :=
  ⟨decline_frame.1 dbW8 "r1" "mallory" "T1" declinedW itemW rfl rfl (by decide),
   decline_frame.2 dbW8 "r1" "d" "T1" declinedW itemW rfl rfl rfl⟩

/-- C9: the endpoint does not validate the status parameter: any supplied
string is written verbatim to the reservation's status and the call
succeeds; strings other than approved and declined cause no other effect
(no tracking record, no item update, no chat, no notifications). -/
theorem status_written_verbatim :
    (∀ db rid uid tid s r it, getDoc db.reservations rid = some r →
       getDoc db.items r.item_id = some it → it.donor_id = uid →
       (update_reservation_status db rid s uid tid).2 = none ∧
       (getDoc (update_reservation_status db rid s uid tid).1.reservations rid).map
         Reservation.status = some s) ∧
    (∀ db rid uid tid s r it, getDoc db.reservations rid = some r →
       getDoc db.items r.item_id = some it → it.donor_id = uid →
       s ≠ "approved" → s ≠ "declined" →
       update_reservation_status db rid s uid tid
         = ({ db with reservations := mapDocs (fun p => if p.1 = rid then { p.2 with status := s } else p.2) db.reservations }, none)) := by
  constructor
  · intro db rid uid tid s r it hr hit hd
    have hfr := getDoc_some_findDoc hr
    by_cases hsa : s = "approved"
    · subst hsa
      constructor
      · simp [update_reservation_status, hr, hit, hd]
      · simp only [update_reservation_status, hr, hit, hd, create_tracking_record,
          reject_other_requests, ne_eq, not_true_eq_false, if_false, ite_false,
          ite_true, if_true, reduceIte]
        split
        · split
          · split <;> (rw [mapDocs_mapDocs, mapDocs_mapDocs, getDoc_mapDocs, hfr]; simp [isOtherPending])
          · split <;> (rw [mapDocs_mapDocs, getDoc_mapDocs, hfr]; simp)
        · split <;> (rw [mapDocs_mapDocs, mapDocs_mapDocs, getDoc_mapDocs, hfr]; simp [isOtherPending])
    · by_cases hsd : s = "declined"
      · subst hsd
        constructor
        · simp [update_reservation_status, hr, hit, hd, hsa]
        · simp only [update_reservation_status, hr, hit, hd, if_neg hsa, ne_eq,
            not_true_eq_false, if_false, ite_false, ite_true, if_true, reduceIte]
          rw [getDoc_mapDocs, hfr]
          simp
      · constructor
        · simp [update_reservation_status, hr, hit, hd, hsa, hsd]
        · simp only [update_reservation_status, hr, hit, hd, if_neg hsa, if_neg hsd,
            ne_eq, not_true_eq_false, if_false, ite_false, ite_true, if_true, reduceIte]
          rw [getDoc_mapDocs, hfr]
          simp
  · intro db rid uid tid s r it hr hit hd hsa hsd
    simp [update_reservation_status, hr, hit, hd, hsa, hsd]

/-- Witness for C9: an arbitrary status string is stored verbatim. -/
theorem status_written_verbatim_witness :
    update_reservation_status dbW8 "r1" "totally_bogus" "d" "T1"
      = ({ dbW8 with reservations := mapDocs (fun p => if p.1 = "r1" then { p.2 with status := "totally_bogus" } else p.2) dbW8.reservations }, none) :=
  status_written_verbatim.2 dbW8 "r1" "d" "T1" "totally_bogus" declinedW itemW
    rfl rfl rfl (by decide) (by decide)

theorem update_tracking_status_found (db : DB) (tid s : String)
    (notes : Option String) (ub : String) (t : TrackingRecord)
    (hft : find_tracking db.tracking tid = some t) :
    (update_tracking_status db tid s notes ub).2 = none ∧
    (update_tracking_status db tid s notes ub).1.tracking
      = updateFirstTracking (fun u => apply_tracking_update u s notes ub) db.tracking tid ∧
    (update_tracking_status db tid s notes ub).1.items = db.items ∧
    (update_tracking_status db tid s notes ub).1.reservations = db.reservations := by
  unfold update_tracking_status
  rw [hft]
  by_cases hits : isTrackingStatus s <;> simp [hits, create_notification]

/-- C6: advancing a tracking record fails with NotFound on an unknown
tracking id; a status outside the fixed vocabulary is rejected; any status
in the vocabulary succeeds regardless of the record's current status — no
transition validation — appending one history entry and updating
current_status to the new value.  The success clause assumes the record's
referenced reservation and item documents exist: with either missing, the
source's completed/picked_up side path raises after the tracking write and
the endpoint answers 500. -/
theorem tracking_endpoint_spec :
    (∀ db tid s notes uid, find_tracking db.tracking tid = none →
       update_tracking_status_endpoint db tid s notes uid = (db, some Err.notFound)) ∧
    (∀ db tid s notes uid t, find_tracking db.tracking tid = some t →
       t.donor_id = uid → isTrackingStatus s = false →
       update_tracking_status_endpoint db tid s notes uid = (db, some Err.badRequest)) ∧
    (∀ db tid s notes uid t it rv, find_tracking db.tracking tid = some t →
       t.donor_id = uid → isTrackingStatus s = true →
       getDoc db.items t.item_id = some it →
       getDoc db.reservations t.reservation_id = some rv →
       (update_tracking_status_endpoint db tid s notes uid).2 = none ∧
       find_tracking (update_tracking_status_endpoint db tid s notes uid).1.tracking tid
         = some (apply_tracking_update t s notes uid) ∧
       (apply_tracking_update t s notes uid).status_history
         = t.status_history ++ [tracking_history_entry s notes uid] ∧
       (apply_tracking_update t s notes uid).current_status = s) := by
  refine ⟨?_, ?_, ?_⟩
  · intro db tid s notes uid h
    simp [update_tracking_status_endpoint, h]
  · intro db tid s notes uid t hft hd hits
    simp [update_tracking_status_endpoint, hft, hd, hits]
  · intro db tid s notes uid t it rv hft hd hits hit hrv
    obtain ⟨e2, etr, eit, ers⟩ := update_tracking_status_found db tid s notes uid t hft
    have hfind : find_tracking
        (updateFirstTracking (fun u => apply_tracking_update u s notes uid) db.tracking tid) tid
        = some (apply_tracking_update t s notes uid) := by
      rw [find_tracking_updateFirst (fun u => apply_tracking_update u s notes uid)
        (fun u => rfl) db.tracking tid, hft]
      rfl
    refine ⟨?_, ?_, rfl, rfl⟩
    · simp only [update_tracking_status_endpoint, hft]
      rw [if_neg (by simp [hd])]
      rw [if_neg (by simp [hits])]
      by_cases hsc : s = "completed" ∨ s = "picked_up"
      · rw [if_pos hsc]
        rw [ers, hrv]
        dsimp only
        rw [eit, hit]
        dsimp only
        exact e2
      · rw [if_neg hsc]
        exact e2
    · simp only [update_tracking_status_endpoint, hft]
      rw [if_neg (by simp [hd])]
      rw [if_neg (by simp [hits])]
      by_cases hsc : s = "completed" ∨ s = "picked_up"
      · rw [if_pos hsc]
        rw [ers, hrv]
        dsimp only
        rw [eit, hit]
        dsimp only
        split <;> simp only [etr] at hfind ⊢ <;> exact hfind
      · rw [if_neg hsc]
        simp only [etr] at hfind ⊢
        exact hfind

def trackW : TrackingRecord := mk_tracking_record "SC1" "r1" "i1" "d" "u"

def dbW6 : DB :=
  { items := [("i1", itemW)], reservations := [("r1", declinedW)],
    tracking := [trackW], chats := [], notifications := [], likes := [] }

/-- Witness for C6: a concrete advance to cancelled. -/
theorem tracking_endpoint_spec_witness :
    (update_tracking_status_endpoint dbW6 "SC1" "cancelled" none "d").2 = none ∧
    find_tracking (update_tracking_status_endpoint dbW6 "SC1" "cancelled" none "d").1.tracking "SC1"
      = some (apply_tracking_update trackW "cancelled" none "d") ∧
    (apply_tracking_update trackW "cancelled" none "d").status_history
      = trackW.status_history ++ [tracking_history_entry "cancelled" none "d"] ∧
    (apply_tracking_update trackW "cancelled" none "d").current_status = "cancelled" :=
  tracking_endpoint_spec.2.2 dbW6 "SC1" "cancelled" none "d" trackW itemW declinedW
    rfl rfl (by decide) rfl rfl

/-- C1: approving one pending reservation on a non-bulk item (by its donor,
under the invariant that no reservation on the item is approved yet) leaves
exactly one approved reservation on that item — the chosen one, which also
receives the tracking id — and every other previously pending reservation on
the item declined. -/
theorem approve_non_bulk_exclusive (db : DB) (rid uid tid : String)
    (r : Reservation) (it : Item)
    (hr : getDoc db.reservations rid = some r)
    (_hpend : r.status = "pending")
    (hit : getDoc db.items r.item_id = some it)
    (hd : it.donor_id = uid)
    (hnb : it.is_bulk_item = false)
    (hnd : (db.reservations.map Prod.fst).Nodup)
    (hnoappr : ∀ p ∈ db.reservations, p.2.item_id = r.item_id → p.2.status ≠ "approved") :
    ((update_reservation_status db rid "approved" uid tid).2 = none) ∧
    ((update_reservation_status db rid "approved" uid tid).1.reservations.countP
        (approvedOnItem r.item_id) = 1) ∧
    ((getDoc (update_reservation_status db rid "approved" uid tid).1.reservations rid)
        = some { r with status := "approved", tracking_id := some tid }) ∧
    (∀ p ∈ db.reservations, p.1 ≠ rid → p.2.item_id = r.item_id → p.2.status = "pending" →
       getDoc (update_reservation_status db rid "approved" uid tid).1.reservations p.1
         = some { p.2 with status := "declined" }) := by
  have hfr := getDoc_some_findDoc hr
  have hmem := (findDoc_key hfr).2
  refine ⟨by simp [update_reservation_status, hr, hit, hd], ?_⟩
  simp only [update_reservation_status, hr, hit, hd, create_tracking_record,
    reject_other_requests, ne_eq, not_true_eq_false, if_false, ite_false, ite_true,
    if_true, reduceIte]
  simp only [if_neg (show ¬(it.is_bulk_item = true ∧ 1 < it.quantity) from by simp [hnb])]
  simp only [apply_ite DB.reservations, ite_self]
  rw [mapDocs_mapDocs, mapDocs_mapDocs]
  refine ⟨?_, ?_, ?_⟩
  · rw [countP_mapDocs, ← countP_key_one hnd hmem]
    apply List.countP_congr
    intro p hp
    by_cases hpk : p.1 = rid
    · have hp2 := mem_key_eq hnd hmem hp hpk
      subst hp2
      simp [approvedOnItem, isOtherPending]
    · by_cases hop : isOtherPending r.item_id rid (p.1, p.2) = true
      · simp [hpk, hop, approvedOnItem, isOtherPending] at hop ⊢
        rw [if_pos hop]
        intro _
        simp
      · simp only [hpk, if_false, ite_false] at hop ⊢
        simp [approvedOnItem, hop, hpk]
        intro h1
        exact hnoappr p hp h1
  · rw [getDoc_mapDocs, hfr]
    simp [isOtherPending]
  · intro p hp hneq hitem hpstat
    have hpm : (p.1, p.2) ∈ db.reservations := by simpa using hp
    rw [getDoc_mapDocs, findDoc_of_mem_nodup hnd hpm]
    simp [isOtherPending, hneq, hitem, hpstat]

def resvU1 : Reservation :=
  { item_id := "i1", user_id := "u1", donor_id := "d", requested_quantity := 1,
    message := none, status := "pending", tracking_id := none }

def resvU2 : Reservation :=
  { item_id := "i1", user_id := "u2", donor_id := "d", requested_quantity := 1,
    message := none, status := "pending", tracking_id := none }

def dbW1 : DB :=
  { items := [("i1", itemW)], reservations := [("r1", resvU1), ("r2", resvU2)],
    tracking := [], chats := [], notifications := [], likes := [] }

/-- Witness for C1: two pending reservations, the first approved. -/
theorem approve_non_bulk_exclusive_witness :
    ((update_reservation_status dbW1 "r1" "approved" "d" "T1").2 = none) ∧
    ((update_reservation_status dbW1 "r1" "approved" "d" "T1").1.reservations.countP
        (approvedOnItem resvU1.item_id) = 1) ∧
    ((getDoc (update_reservation_status dbW1 "r1" "approved" "d" "T1").1.reservations "r1")
        = some { resvU1 with status := "approved", tracking_id := some "T1" }) ∧
    (∀ p ∈ dbW1.reservations, p.1 ≠ "r1" → p.2.item_id = resvU1.item_id →
       p.2.status = "pending" →
       getDoc (update_reservation_status dbW1 "r1" "approved" "d" "T1").1.reservations p.1
         = some { p.2 with status := "declined" }) :=
  approve_non_bulk_exclusive dbW1 "r1" "d" "T1" resvU1 itemW
    rfl rfl rfl rfl rfl (by decide) (by decide)

def bulkOneItem : Item :=
  { name := "apples", donor_id := "d", status := "available",
    is_bulk_item := true, quantity := 1, likes := 0 }

def bulkOneResv : Reservation :=
  { item_id := "i1", user_id := "u", donor_id := "d", requested_quantity := 1,
    message := none, status := "pending", tracking_id := none }

def dbC2 : DB :=
  { items := [("i1", bulkOneItem)], reservations := [("r1", bulkOneResv)],
    tracking := [], chats := [], notifications := [], likes := [] }

/-- C2 counterexample: a bulk item with stored quantity 1 and an approved
request for quantity 1.  The claim predicts stored quantity
1 - 1 = 0 and status donated; the code's bulk branch requires quantity > 1,
so the item takes the single-item path: status reserved, quantity still 1. -/
theorem bulk_quantity_counterexample :
    bulkOneItem.is_bulk_item = true ∧
    bulkOneItem.quantity - bulkOneResv.requested_quantity ≤ 0 ∧
    (getDoc (update_reservation_status dbC2 "r1" "approved" "d" "T1").1.items "i1").map
      Item.quantity = some 1 ∧
    (getDoc (update_reservation_status dbC2 "r1" "approved" "d" "T1").1.items "i1").map
      Item.status = some "reserved" := by
  decide

/-- C2 (amended): for every bulk item with stored quantity strictly greater
than 1, approval of a pending reservation requesting quantity q stores
quantity_before - q when that is positive and 0 otherwise, and sets the
item's status to donated iff quantity_before - q ≤ 0 (leaving it unchanged
otherwise); a bulk item with stored quantity ≤ 1 instead follows the
single-item path. -/
theorem bulk_quantity_amended (db : DB) (rid uid tid : String)
    (r : Reservation) (it : Item)
    (hr : getDoc db.reservations rid = some r)
    (_hpend : r.status = "pending")
    (hit : getDoc db.items r.item_id = some it)
    (hd : it.donor_id = uid)
    (hb : it.is_bulk_item = true)
    (hq : 1 < it.quantity) :
    ((update_reservation_status db rid "approved" uid tid).2 = none) ∧
    ((getDoc (update_reservation_status db rid "approved" uid tid).1.items r.item_id).map
        Item.quantity
      = some (if it.quantity - r.requested_quantity ≤ 0 then 0
              else it.quantity - r.requested_quantity)) ∧
    ((getDoc (update_reservation_status db rid "approved" uid tid).1.items r.item_id).map
        Item.status
      = some (if it.quantity - r.requested_quantity ≤ 0 then "donated" else it.status)) := by
  have hfi := getDoc_some_findDoc hit
  refine ⟨by simp [update_reservation_status, hr, hit, hd], ?_, ?_⟩
  all_goals
    simp only [update_reservation_status, hr, hit, hd, create_tracking_record,
      reject_other_requests, ne_eq, not_true_eq_false, if_false, ite_false, ite_true,
      if_true, reduceIte]
  all_goals
    simp only [if_pos (show it.is_bulk_item = true ∧ 1 < it.quantity from ⟨hb, hq⟩)]
  all_goals
    simp only [apply_ite DB.items, ite_self]
  all_goals split
  all_goals rename_i hle
  all_goals rw [getDoc_mapDocs, hfi]
  all_goals simp [hle]

def bulkManyItem : Item :=
  { name := "apples", donor_id := "d", status := "available",
    is_bulk_item := true, quantity := 5, likes := 0 }

def bulkManyResv : Reservation :=
  { item_id := "i1", user_id := "u", donor_id := "d", requested_quantity := 2,
    message := none, status := "pending", tracking_id := none }

def dbW2 : DB :=
  { items := [("i1", bulkManyItem)], reservations := [("r1", bulkManyResv)],
    tracking := [], chats := [], notifications := [], likes := [] }

/-- Witness for the amended C2: quantity 5, request for 2. -/
theorem bulk_quantity_amended_witness :
    ((update_reservation_status dbW2 "r1" "approved" "d" "T1").2 = none) ∧
    ((getDoc (update_reservation_status dbW2 "r1" "approved" "d" "T1").1.items
        bulkManyResv.item_id).map Item.quantity
      = some (if bulkManyItem.quantity - bulkManyResv.requested_quantity ≤ 0 then 0
              else bulkManyItem.quantity - bulkManyResv.requested_quantity)) ∧
    ((getDoc (update_reservation_status dbW2 "r1" "approved" "d" "T1").1.items
        bulkManyResv.item_id).map Item.status
      = some (if bulkManyItem.quantity - bulkManyResv.requested_quantity ≤ 0
              then "donated" else bulkManyItem.status)) :=
  bulk_quantity_amended dbW2 "r1" "d" "T1" bulkManyResv bulkManyItem
    rfl rfl rfl rfl rfl (by decide)

def bulkRemainItem : Item :=
  { name := "apples", donor_id := "d", status := "available",
    is_bulk_item := true, quantity := 3, likes := 0 }

def approvedResv : Reservation :=
  { item_id := "i1", user_id := "u", donor_id := "d", requested_quantity := 2,
    message := none, status := "approved", tracking_id := some "T1" }

def dbC3 : DB :=
  { items := [("i1", bulkRemainItem)], reservations := [("r1", approvedResv)],
    tracking := [], chats := [], notifications := [], likes := [] }

/-- C3 evidence: mark_item_picked_up sets the item's status to donated
unconditionally — here a bulk item with remaining quantity 3 — contradicting
the claim (and the tracking-status path, which checks is_bulk_item before
marking donated).  The call succeeds, the reservation becomes picked_up, and
a second call also succeeds (idempotent in effect), but the bulk item does
not stay available. -/
theorem pickup_bulk_item_donated :
    bulkRemainItem.is_bulk_item = true ∧
    (0 : Int) < bulkRemainItem.quantity ∧
    ((mark_item_picked_up dbC3 "i1" "r1" "u").2 = none) ∧
    ((getDoc (mark_item_picked_up dbC3 "i1" "r1" "u").1.items "i1").map Item.status
      = some "donated") ∧
    ((getDoc (mark_item_picked_up dbC3 "i1" "r1" "u").1.reservations "r1").map
        Reservation.status = some "picked_up") ∧
    ((mark_item_picked_up (mark_item_picked_up dbC3 "i1" "r1" "u").1 "i1" "r1" "u").2
      = none) := by
  decide

end Sharecare
